import Mathlib

/-!
Shallow embedding of the QTPAiProject batch LLM-query core
(`src/ai_model.py` and `src/lambda_function.py`) and proofs checking the
natural-language specification against it.

Modelling conventions:
* Python exceptions are modelled with `Except Err`; a function that cannot
  raise is total, a function that can raise returns `Except`.
* The network transport of each provider backend (the HTTP client call) is a
  parameter `transport : String → Except Err String`; a transport failure is
  a raised exception on that channel.
* `os.environ` is a parameter `env : String → Option String`.
* The multiprocessing Pipe/Process machinery of `parallel_ai_call` is
  deterministic data flow: each child computes `sheet_ai_call` and the parent
  collects the values, so it is modelled by direct function application.
* Python `dict` keyed by company keeps first-occurrence key order and merges
  duplicate keys, which is exactly `List.eraseDups`.
-/

namespace QTP

/-- A Python exception, reduced to its message string (what `str(e)` yields). -/
abbrev Err := String

/-- `os.environ` as a partial map from variable names to values. -/
abbrev Env := String → Option String

/-- A provider backend network call: the prompt in, the reply text out, or a
raised exception. -/
abbrev Transport := String → Except Err String

/-- ASCII single-quote character as a string, used by Python repr renderings. -/
def squote : String := String.singleton (Char.ofNat 39)

/-- Python `str.lower()` (the provider identifiers here are ASCII). -/
def pyLower (s : String) : String := String.mk (s.data.map Char.toLower)

/-- Python `str.upper()` (the provider identifiers here are ASCII). -/
def pyUpper (s : String) : String := String.mk (s.data.map Char.toUpper)

/-- Python `str.strip()`: the string with leading and trailing whitespace
removed. -/
def pyStrip (s : String) : String :=
  String.mk (((s.data.dropWhile Char.isWhitespace).reverse.dropWhile Char.isWhitespace).reverse)

/-- Helper for `pySplitComma`: walk the characters, cutting at each comma. -/
def splitCommaAux : List Char → List Char → List String
  | [], acc => [String.mk acc.reverse]
  | c :: rest, acc =>
      if c = ',' then String.mk acc.reverse :: splitCommaAux rest []
      else splitCommaAux rest (c :: acc)

/-- Python `s.split(",")`: pieces between commas, in order; no piece dropped. -/
def pySplitComma (s : String) : List String := splitCommaAux s.data []

/-- Equality on `Except` is decidable componentwise; needed so concrete runs
of the embedded fallible functions can be checked by `decide`. -/
instance {e a : Type} [DecidableEq e] [DecidableEq a] : DecidableEq (Except e a) := fun x y =>
  match x, y with
  | .ok u, .ok v =>
      if h : u = v then isTrue (by rw [h]) else isFalse (fun hh => h (Except.ok.inj hh))
  | .error u, .error v =>
      if h : u = v then isTrue (by rw [h]) else isFalse (fun hh => h (Except.error.inj hh))
  | .ok _, .error _ => isFalse (fun hh => Except.noConfusion hh)
  | .error _, .ok _ => isFalse (fun hh => Except.noConfusion hh)

/-- Python `str(...)` rendering of a list of strings, as in f-string
interpolation of a list value. -/
def pyReprList (l : List String) : String :=
  "[" ++ String.intercalate ", " (l.map (fun s => squote ++ s ++ squote)) ++ "]"

/-- A Python runtime value, as far as `set_api_key` type-checks it: a string
or some non-string value. -/
inductive PyVal where
  | str (s : String)
  | pyBool (b : Bool)
  | pyInt (n : Int)
  | pyNone
deriving DecidableEq, Repr

/-- The two exception classes `set_api_key` raises. -/
inductive PyError where
  | typeError (msg : String)
  | valueError (msg : String)
deriving DecidableEq, Repr

/-- `str(e)` for a `set_api_key` exception. -/
def PyError.msg : PyError → String
  | .typeError m => m
  | .valueError m => m

/-! ## `src/ai_model.py` -/

/-- `valid_providers` from `AIModel.__init__`. -/
def valid_providers : List String := ["openai", "anthropic", "grok", "perplexity"]

/-- `AIModel.__init__`: validates the provider name and stores its
lower-cased form; raises `ValueError` otherwise. -/
def AIModel.init (provider : String) : Except Err String :=
  if pyLower provider ∈ valid_providers then Except.ok (pyLower provider)
  else Except.error ("Unsupported provider. Must be one of: " ++ pyReprList valid_providers)

/-- `AIModel.set_api_key`: raises `TypeError` for a non-string key,
`ValueError` for an empty or whitespace-only key, and otherwise stores the
stripped key in the environment variable `{PROVIDER}_API_KEY`.
Returns the (variable name, stored value) pair. -/
def AIModel.set_api_key (provider : String) (api_key : PyVal) : Except PyError (String × String) :=
  match api_key with
  | .str s =>
      if pyStrip s = "" then Except.error (.valueError "API key cannot be empty or whitespace")
      else Except.ok (pyUpper provider ++ "_API_KEY", pyStrip s)
  | _ => Except.error (.typeError "API key must be a string")

/-- Python truthiness of `os.environ.get(name)`: absent or empty is falsy. -/
def keyMissing (env : Env) (name : String) : Bool :=
  match env name with
  | Option.none => true
  | Option.some k => k = ""

/-- The type of a `*_api_call` bound method: environment, transport, prompt. -/
abbrev ApiMethod := Env → Transport → String → Except Err String

/-- `AIModel.openai_api_call`: missing key yields a marker string; the client
call sits inside `try`, and `except Exception` converts any raised error to a
returned marker string. -/
def AIModel.openai_api_call (env : Env) (transport : Transport) (prompt : String) :
    Except Err String :=
  if keyMissing env "OPENAI_API_KEY" then
    Except.ok "Error: OpenAI API key not found in environment variables"
  else
    match transport prompt with
    | Except.ok content => Except.ok content
    | Except.error e => Except.ok ("Error calling AI service: " ++ e)

/-- `AIModel.anthropic_api_call`: same containment shape as the OpenAI path:
client construction and the message call sit inside `try`, with a catch-all. -/
def AIModel.anthropic_api_call (env : Env) (transport : Transport) (prompt : String) :
    Except Err String :=
  if keyMissing env "ANTHROPIC_API_KEY" then
    Except.ok "Error: Anthropic API key not found in environment variables"
  else
    match transport prompt with
    | Except.ok content => Except.ok content
    | Except.error e => Except.ok ("Error calling AI service: " ++ e)

/-- `AIModel.grok_api_call`: in the source the client construction and the
`chat.completions.create` request happen BEFORE the `try` block (the `try`
wraps only the `print`/`return`, and its `except` clause catches only
`requests.exceptions.RequestException`), so a transport failure propagates as
a raised exception instead of being converted to a marker string. -/
def AIModel.grok_api_call (env : Env) (transport : Transport) (prompt : String) :
    Except Err String :=
  if keyMissing env "GROK_API_KEY" then
    Except.ok "Error: Grok API key not found in environment variables"
  else
    transport prompt

/-- `AIModel.perplexity_api_call`: the `requests.post` round trip and
`raise_for_status` sit inside `try` with `except RequestException`; transport
failures (request exceptions) are converted to a marker string. -/
def AIModel.perplexity_api_call (env : Env) (transport : Transport) (prompt : String) :
    Except Err String :=
  if keyMissing env "PERPLEXITY_API_KEY" then
    Except.ok "Error: Perplexity API key not found in environment variables"
  else
    match transport prompt with
    | Except.ok content => Except.ok content
    | Except.error e => Except.ok ("Error calling AI service: " ++ e)

/-- The dynamic `getattr(self, f"{provider}_api_call", None)` lookup over the
methods defined on the `AIModel` class. -/
def AIModel.getattr (name : String) : Option ApiMethod :=
  if name = "openai_api_call" then Option.some AIModel.openai_api_call
  else if name = "anthropic_api_call" then Option.some AIModel.anthropic_api_call
  else if name = "grok_api_call" then Option.some AIModel.grok_api_call
  else if name = "perplexity_api_call" then Option.some AIModel.perplexity_api_call
  else Option.none

/-- `AIModel.call`: dynamic dispatch on `f"{self.provider}_api_call"`, with a
returned error-marker string when the lookup finds no method. -/
def AIModel.call (provider : String) (env : Env) (transport : Transport) (prompt : String) :
    Except Err String :=
  let provider_method := provider ++ "_api_call"
  match AIModel.getattr provider_method with
  | Option.some method => method env transport prompt
  | Option.none =>
      Except.ok ("Error: Unsupported AI provider " ++ squote ++ provider ++ squote ++ ".")

/-! ## `src/lambda_function.py` -/

/-- A value sent back through a worker pipe and stored in a grid cell: either
the string `model.call` returned, or the error dict
`{"error": True, "message": {"content": msg}}` built in the `except` branch
of `sheet_ai_call`. Row heads are also strings, hence `str`. -/
inductive Value where
  | str (s : String)
  | errorDict (message : String)
deriving DecidableEq, Repr

/-- The `metadata` object of `parallel_ai_call`'s return value. -/
structure Metadata where
  companies : List String
  prompts : List String
deriving DecidableEq, Repr

/-- The full return value of `parallel_ai_call`: `data` grid plus metadata. -/
structure BatchResult where
  data : List (List Value)
  metadata : Metadata
deriving DecidableEq, Repr

/-- The JSON body of the handler response: the batch result on the 200 path,
`{"error": str(e)}` on the 500 path. -/
inductive Body where
  | result (r : BatchResult)
  | error (message : String)
deriving DecidableEq, Repr

/-- The handler return value: status code and body. -/
structure Response where
  statusCode : Nat
  body : Body
deriving DecidableEq, Repr

/-- An event field that may arrive as a single string or as a list
(`companies` and `prompts` both allow either shape). -/
inductive StrOrList where
  | str (s : String)
  | list (l : List String)
deriving DecidableEq, Repr

/-- The list coercion in `lambda_handler`: a non-list value becomes a
singleton when truthy, the empty list when falsy (empty string). -/
def StrOrList.to_list : StrOrList → List String
  | .str s => if s = "" then [] else [s]
  | .list l => l

/-- The f-string template built at the top of `sheet_ai_call`. -/
def fullPrompt (company prompt : String) : String :=
  "\n        Act as a financial analyst for an investment banking company.\n        Be concise with your word, and only provide information needed. Evaluate the company " ++
    company ++
    ",\n        by answer the following questions: " ++
    prompt ++
    ".\n        If outputs were to be links, names, numerical figures, contact, etc; that do not require textual\n        description, ONLY provide that output, nothing else.\n        Limit output to less than 80 words, no more than this.\n        "

/-- Prompt composition inside `sheet_ai_call`: the template, with the
rendering of the DynamoDB lookup appended when `private_data` is set.
`read_dynamo` models `str(read_dynamo(company))`, with a raised boto3
exception on the error channel. -/
def composed_prompt (company prompt : String) (private_data : Bool)
    (read_dynamo : String → Except Err String) : Except Err String :=
  if private_data then
    (read_dynamo company).map
      (fun d => fullPrompt company prompt ++ " Incorporate this data as a reference: " ++ d)
  else Except.ok (fullPrompt company prompt)

/-- `sheet_ai_call`: composes the prompt, invokes `model.call`, and sends
exactly one value back on its pipe: the returned string on success, or — for
any exception raised by the lookup or the call — the error dict whose message
embeds the company name and `str(e)`.
`model_call` models `model.call` on the constructed model, which can raise
(see `AIModel.grok_api_call`). -/
def sheet_ai_call (company prompt : String) (private_data : Bool)
    (read_dynamo model_call : String → Except Err String) : Value :=
  match (composed_prompt company prompt private_data read_dynamo).bind model_call with
  | Except.ok result => Value.str result
  | Except.error e => Value.errorDict ("Error processing " ++ company ++ ": " ++ e)

/-- `parallel_ai_call`: builds `company_results = {c: [c] for c in companies}`
(a dict, so duplicate names merge into one key in first-occurrence order,
i.e. `List.eraseDups`), then for each prompt runs one worker per company and
appends each distinct company's received value to its row; returns the rows
in dict order plus metadata echoing the argument lists. -/
def parallel_ai_call (companies prompts : List String) (private_data : Bool)
    (read_dynamo model_call : String → Except Err String) : BatchResult :=
  { data := companies.eraseDups.map (fun company =>
      Value.str company :: prompts.map (fun prompt =>
        sheet_ai_call company prompt private_data read_dynamo model_call)),
    metadata := { companies := companies, prompts := prompts } }

/-- The f-string template of `generate_companies`; `company` is the rendering
of the interpolated value (in the handler, a Python list of strings). -/
def generatePrompt (number : Nat) (company : String) : String :=
  "\n        Your task is to conduct deep research to identify " ++ toString number ++
    " companies or investors\n        that would be willing to invest in " ++ company ++
    ". Follow these steps:\n        Search for companies in the gaming industry that have recently engaged in\n        gaming companies acquisition, focus on recent transactions. In addition,\n        incorporate companies outside of gaming industry, that have traction with the\n        gaming industry, or have expanded its business towrds the gaming industry.\n        Check these companies recent management presentations, earning call transcripts,\n        search company LinkedIn for keywords such as M&A, investment, or deal.\n        Output should ONLY be the name of the company, seperated with a comma.\n        Do not output anything else. "

/-- `generate_companies`: one gateway call on the discovery prompt (a raised
exception propagates — no containment here), then the reply split on commas
with each piece stripped. -/
def generate_companies (company : List String) (number : Nat)
    (model_call : String → Except Err String) : Except Err (List String) :=
  (model_call (generatePrompt number (pyReprList company))).map
    (fun result => (pySplitComma result).map pyStrip)

/-- `lambda_handler`: inside one `try`, construct the model, set the key,
coerce and filter the two lists (Python truthiness: only the empty string is
falsy), optionally replace the companies via `generate_companies`, run
`parallel_ai_call`, and wrap the result as a 200 response; any exception
raised anywhere in the block becomes a 500 response with `{"error": str(e)}`.
`model_call` models `model.call` on the constructed model. -/
def lambda_handler (companies prompts : StrOrList) (provider : String) (api_key : PyVal)
    (number : Nat) (create_list private_data : Bool)
    (read_dynamo model_call : String → Except Err String) : Response :=
  match AIModel.init provider with
  | Except.error e => { statusCode := 500, body := Body.error e }
  | Except.ok prov =>
    match AIModel.set_api_key prov api_key with
    | Except.error e => { statusCode := 500, body := Body.error e.msg }
    | Except.ok _ =>
      let companies1 := companies.to_list.filter (fun name => name ≠ "")
      let prompts1 := prompts.to_list.filter (fun p => p ≠ "")
      match (if create_list then generate_companies companies1 number model_call
             else Except.ok companies1) with
      | Except.error e => { statusCode := 500, body := Body.error e }
      | Except.ok companies2 =>
        { statusCode := 200,
          body := Body.result
            (parallel_ai_call companies2 prompts1 private_data read_dynamo model_call) }

/-- Cell access in a result grid: row `i`, outcome column `j` (grid column
`j + 1`, past the company name at the head of the row). -/
def gridCell (data : List (List Value)) (i j : Nat) : Option Value :=
  (data[i]?).bind (fun row => row[j + 1]?)

/-- A DynamoDB stub that renders every lookup as the empty string. -/
def stubDynamo : String → Except Err String := fun _ => Except.ok ""

/-- A gateway stub answering every prompt with the fixed reply `s`. -/
def stubAnswer (s : String) : String → Except Err String := fun _ => Except.ok s

/-! ## Helper lemmas -/

/-- Constructing the model on the valid provider id `"openai"` succeeds. -/
lemma init_openai : AIModel.init "openai" = Except.ok "openai" := by decide

/-- Setting the non-blank key `"k"` on the openai model succeeds. -/
lemma set_api_key_k :
    AIModel.set_api_key "openai" (PyVal.str "k") = Except.ok ("OPENAI_API_KEY", "k") := by decide

/-- Reduction of `lambda_handler` on the 200 path with `create_list` false:
model construction and key setting succeed, both lists are coerced and
filtered by truthiness, and the batch result is wrapped as a 200 response. -/
lemma lambda_handler_ok (companies prompts : StrOrList) (number : Nat) (private_data : Bool)
    (read_dynamo g : String → Except Err String) :
    lambda_handler companies prompts "openai" (PyVal.str "k") number false private_data
        read_dynamo g
      = { statusCode := 200,
          body := Body.result (parallel_ai_call
            (companies.to_list.filter (fun name => name ≠ ""))
            (prompts.to_list.filter (fun p => p ≠ "")) private_data read_dynamo g) } := by
  simp [lambda_handler, init_openai, set_api_key_k]

/-! ## Claim theorems -/

/-- C1: the claim asserts that the Result Grid has exactly n rows for a
company list of size n even under duplicate names. The code keys
`company_results` by company name in a dict, so duplicates merge: at
companies `["A", "A"]` and one prompt the grid has 1 row where the claim
demands 2. Each surviving row does have 1 + m elements. -/
theorem parallel_ai_call_merges_duplicate_companies :
    (parallel_ai_call ["A", "A"] ["p"] false stubDynamo (stubAnswer "ok")).data.length = 1
    ∧ (["A", "A"] : List String).length = 2 := ⟨rfl, rfl⟩

/-- C6: the claim asserts that duplicate company names produce duplicate
rows. The dict keyed by company merges them: at companies `["B", "B"]` the
grid is a single row `["B"]`, not two duplicate rows. -/
theorem duplicate_companies_produce_single_row :
    (parallel_ai_call ["B", "B"] [] false stubDynamo (stubAnswer "ok")).data
      = [[Value.str "B"]]
    ∧ ([[Value.str "B"]] : List (List Value))
        ≠ [[Value.str "B"], [Value.str "B"]] := ⟨rfl, by decide⟩

/-- C8: end-to-end example: companies `["Foo"]`, prompts `["Revenue?"]`,
private_data false, stub gateway answering `"100M"` — the batch returns grid
`[["Foo", "100M"]]` and metadata echoing companies and prompts. -/
theorem end_to_end_example :
    parallel_ai_call ["Foo"] ["Revenue?"] false stubDynamo (stubAnswer "100M")
      = { data := [[Value.str "Foo", Value.str "100M"]],
          metadata := { companies := ["Foo"], prompts := ["Revenue?"] } } := rfl

/-- C3 counterexample: the claim asserts whitespace-only values are dropped
before dispatch, with effective companies `["Acme", "Globex"]` on the given
input. The handler filters by Python truthiness (`if name`), which keeps the
whitespace-only string `"  "`: the batch runs with effective companies
`["Acme", "  ", "Globex"]`, refuting the claim. -/
theorem filter_keeps_whitespace_counterexample :
    lambda_handler (StrOrList.list ["Acme", "", "  ", "Globex"])
        (StrOrList.list ["What is X?", ""]) "openai" (PyVal.str "k") 10 false false
        stubDynamo (stubAnswer "ok")
      = { statusCode := 200,
          body := Body.result
            { data := [[Value.str "Acme", Value.str "ok"],
                       [Value.str "  ", Value.str "ok"],
                       [Value.str "Globex", Value.str "ok"]],
              metadata := { companies := ["Acme", "  ", "Globex"],
                            prompts := ["What is X?"] } } }
    ∧ (["Acme", "  ", "Globex"] : List String) ≠ ["Acme", "Globex"] := by
  refine ⟨?_, by decide⟩
  rw [lambda_handler_ok]
  rfl

/-- C3 (amended): before dispatch, exactly the empty-string values are
dropped from both lists (whitespace-only values are kept); in particular the
example input runs with effective companies `["Acme", "  ", "Globex"]` and a
single prompt column. -/
theorem filter_drops_only_empty
    (companies prompts : List String) (read_dynamo g : String → Except Err String) :
    (∃ r : BatchResult,
        lambda_handler (StrOrList.list companies) (StrOrList.list prompts) "openai"
            (PyVal.str "k") 10 false false read_dynamo g
          = { statusCode := 200, body := Body.result r }
        ∧ r.metadata.companies = companies.filter (fun name => name ≠ "")
        ∧ r.metadata.prompts = prompts.filter (fun p => p ≠ ""))
    ∧ (lambda_handler (StrOrList.list ["Acme", "", "  ", "Globex"])
          (StrOrList.list ["What is X?", ""]) "openai" (PyVal.str "k") 10 false false
          read_dynamo g).statusCode = 200 := by
  constructor
  · exact ⟨parallel_ai_call (companies.filter (fun name => name ≠ ""))
        (prompts.filter (fun p => p ≠ "")) false read_dynamo g,
      lambda_handler_ok (StrOrList.list companies) (StrOrList.list prompts) 10 false
        read_dynamo g, rfl, rfl⟩
  · rw [lambda_handler_ok]

/-- C4: the claim asserts no `*_api_call` ever raises. In `grok_api_call` the
client construction and the completion request sit before the `try` block, so
a transport failure raises out of `grok_api_call` and `AIModel.call` instead
of being returned as an error-marker string. -/
theorem grok_api_call_propagates_transport_error :
    AIModel.call "grok" (fun _ => Option.some "sk")
        (fun _ => Except.error "connection refused") "hi"
      = Except.error "connection refused" := rfl

/-- C2: a Task Unit delivers exactly one outcome: an exception raised by the
provider call is converted at the `sheet_ai_call` boundary to the error dict
whose message embeds the company name and the error description; and a
gateway that fails only on the composed prompt of the pair (X, Y) leaves the
grid height, every row length, and every cell whose composed prompt differs
from (X, Y)'s unchanged. -/
theorem sheet_ai_call_failure_containment
    (companies prompts : List String) (read_dynamo g g' : String → Except Err String)
    (X Y : String) (i j : Nat) (c p : String)
    (hagree : ∀ q, q ≠ fullPrompt X Y → g' q = g q)
    (hc : (companies.eraseDups)[i]? = Option.some c)
    (hp : prompts[j]? = Option.some p)
    (hne : fullPrompt c p ≠ fullPrompt X Y) :
    (∀ c1 p1 e, g' (fullPrompt c1 p1) = Except.error e →
        sheet_ai_call c1 p1 false read_dynamo g'
          = Value.errorDict ("Error processing " ++ c1 ++ ": " ++ e))
    ∧ (∀ c1 p1 e, read_dynamo c1 = Except.error e →
        sheet_ai_call c1 p1 true read_dynamo g'
          = Value.errorDict ("Error processing " ++ c1 ++ ": " ++ e))
    ∧ (parallel_ai_call companies prompts false read_dynamo g').data.length
        = (parallel_ai_call companies prompts false read_dynamo g).data.length
    ∧ ((parallel_ai_call companies prompts false read_dynamo g').data[i]?).map List.length
        = ((parallel_ai_call companies prompts false read_dynamo g).data[i]?).map List.length
    ∧ gridCell (parallel_ai_call companies prompts false read_dynamo g').data i j
        = gridCell (parallel_ai_call companies prompts false read_dynamo g).data i j := by
  refine ⟨?_, ?_, ?_, ?_, ?_⟩
  · intro c1 p1 e he
    simp [sheet_ai_call, composed_prompt, Except.bind, he]
  · intro c1 p1 e he
    simp [sheet_ai_call, composed_prompt, Except.map, Except.bind, he]
  · simp [parallel_ai_call]
  · simp only [parallel_ai_call, List.getElem?_map]
    cases (companies.eraseDups)[i]? <;> simp
  · have hg : g' (fullPrompt c p) = g (fullPrompt c p) := hagree _ hne
    simp [gridCell, parallel_ai_call, List.getElem?_map, hc, hp,
      sheet_ai_call, composed_prompt, Except.bind, hg]

set_option maxRecDepth 8192 in
/-- Witness for C2: a two-company, two-prompt batch where the gateway fails
exactly on the composed prompt of ("Foo", "Q2"); the cell ("Bar", "Q1") is
inspected. -/
theorem sheet_ai_call_failure_containment_witness :
    (∀ q, q ≠ fullPrompt "Foo" "Q2" →
        (fun q0 => if q0 = fullPrompt "Foo" "Q2" then Except.error "boom"
          else Except.ok "ans" : String → Except Err String) q
          = (stubAnswer "ans") q)
    ∧ ((["Foo", "Bar"] : List String).eraseDups)[1]? = Option.some "Bar"
    ∧ (["Q1", "Q2"] : List String)[0]? = Option.some "Q1"
    ∧ fullPrompt "Bar" "Q1" ≠ fullPrompt "Foo" "Q2"
    ∧ ((∀ c1 p1 e,
          (fun q0 => if q0 = fullPrompt "Foo" "Q2" then Except.error "boom"
            else Except.ok "ans" : String → Except Err String) (fullPrompt c1 p1)
            = Except.error e →
          sheet_ai_call c1 p1 false stubDynamo
              (fun q0 => if q0 = fullPrompt "Foo" "Q2" then Except.error "boom"
                else Except.ok "ans" : String → Except Err String)
            = Value.errorDict ("Error processing " ++ c1 ++ ": " ++ e))
        ∧ (∀ c1 p1 e, stubDynamo c1 = Except.error e →
          sheet_ai_call c1 p1 true stubDynamo
              (fun q0 => if q0 = fullPrompt "Foo" "Q2" then Except.error "boom"
                else Except.ok "ans" : String → Except Err String)
            = Value.errorDict ("Error processing " ++ c1 ++ ": " ++ e))
        ∧ (parallel_ai_call ["Foo", "Bar"] ["Q1", "Q2"] false stubDynamo
            (fun q0 => if q0 = fullPrompt "Foo" "Q2" then Except.error "boom"
              else Except.ok "ans" : String → Except Err String)).data.length
            = (parallel_ai_call ["Foo", "Bar"] ["Q1", "Q2"] false stubDynamo
                (stubAnswer "ans")).data.length
        ∧ ((parallel_ai_call ["Foo", "Bar"] ["Q1", "Q2"] false stubDynamo
            (fun q0 => if q0 = fullPrompt "Foo" "Q2" then Except.error "boom"
              else Except.ok "ans" : String → Except Err String)).data[1]?).map List.length
            = ((parallel_ai_call ["Foo", "Bar"] ["Q1", "Q2"] false stubDynamo
                (stubAnswer "ans")).data[1]?).map List.length
        ∧ gridCell (parallel_ai_call ["Foo", "Bar"] ["Q1", "Q2"] false stubDynamo
            (fun q0 => if q0 = fullPrompt "Foo" "Q2" then Except.error "boom"
              else Except.ok "ans" : String → Except Err String)).data 1 0
            = gridCell (parallel_ai_call ["Foo", "Bar"] ["Q1", "Q2"] false stubDynamo
                (stubAnswer "ans")).data 1 0) :=
  ⟨fun q hq => by simp [stubAnswer, hq], by decide, by decide, by decide,
    sheet_ai_call_failure_containment ["Foo", "Bar"] ["Q1", "Q2"] stubDynamo
      (stubAnswer "ans")
      (fun q0 => if q0 = fullPrompt "Foo" "Q2" then Except.error "boom"
        else Except.ok "ans" : String → Except Err String)
      "Foo" "Q2" 1 0 "Bar" "Q1"
      (fun q hq => by simp [stubAnswer, hq]) (by decide) (by decide) (by decide)⟩

/-- The comma-split-and-strip of the stubbed discovery reply `"A, B, C"`. -/
lemma split_abc : (pySplitComma "A, B, C").map pyStrip = ["A", "B", "C"] := by decide

/-- The three generated company names are distinct, so the result dict keeps
all three rows. -/
lemma eraseDups_abc : (["A", "B", "C"] : List String).eraseDups = ["A", "B", "C"] := by decide

/-- C5: when list generation is requested, the handler makes one gateway call
on the discovery prompt, splits the comma-separated reply, strips each entry,
and runs the whole batch with that list in place of the caller-supplied
companies: with the reply `"A, B, C"`, metadata and grid rows use
`["A", "B", "C"]` regardless of the caller company list. -/
theorem generate_companies_substitution
    (companies prompts : StrOrList) (number : Nat) (private_data : Bool)
    (read_dynamo g : String → Except Err String)
    (hgen : g (generatePrompt number
        (pyReprList (companies.to_list.filter (fun name => name ≠ ""))))
      = Except.ok "A, B, C") :
    ∃ r : BatchResult,
      lambda_handler companies prompts "openai" (PyVal.str "k") number true private_data
          read_dynamo g
        = { statusCode := 200, body := Body.result r }
      ∧ r.metadata.companies = ["A", "B", "C"]
      ∧ r.data.map (fun row => row[0]?) =
          [Option.some (Value.str "A"), Option.some (Value.str "B"),
            Option.some (Value.str "C")] := by
  refine ⟨parallel_ai_call ["A", "B", "C"]
      (prompts.to_list.filter (fun ps => ps ≠ "")) private_data read_dynamo g, ?_, rfl, ?_⟩
  · simp only [lambda_handler, init_openai, set_api_key_k, generate_companies, hgen,
      Except.map, split_abc]
    simp
  · simp [parallel_ai_call, eraseDups_abc]

set_option maxRecDepth 8192 in
/-- Witness for C5: caller companies `["Seed"]`, one prompt, and a gateway
answering the discovery prompt with `"A, B, C"`. -/
theorem generate_companies_substitution_witness :
    ((fun q => if q = generatePrompt 10 (pyReprList ["Seed"]) then Except.ok "A, B, C"
        else Except.ok "x" : String → Except Err String)
      (generatePrompt 10
        (pyReprList ((StrOrList.list ["Seed"]).to_list.filter (fun name => name ≠ ""))))
      = Except.ok "A, B, C")
    ∧ ∃ r : BatchResult,
        lambda_handler (StrOrList.list ["Seed"]) (StrOrList.list ["Q"]) "openai"
            (PyVal.str "k") 10 true false stubDynamo
            (fun q => if q = generatePrompt 10 (pyReprList ["Seed"]) then Except.ok "A, B, C"
              else Except.ok "x" : String → Except Err String)
          = { statusCode := 200, body := Body.result r }
        ∧ r.metadata.companies = ["A", "B", "C"]
        ∧ r.data.map (fun row => row[0]?) =
            [Option.some (Value.str "A"), Option.some (Value.str "B"),
              Option.some (Value.str "C")] :=
  ⟨by decide,
    generate_companies_substitution (StrOrList.list ["Seed"]) (StrOrList.list ["Q"]) 10 false
      stubDynamo
      (fun q => if q = generatePrompt 10 (pyReprList ["Seed"]) then Except.ok "A, B, C"
        else Except.ok "x" : String → Except Err String)
      (by decide)⟩

/-- C7: when list generation is requested and the generation call raises, the
exception is not contained like a Task Unit failure: it propagates out of
`generate_companies` and the handler answers 500 with the error payload — no
result grid is produced. -/
theorem generation_failure_aborts_batch
    (companies prompts : StrOrList) (number : Nat) (private_data : Bool)
    (read_dynamo g : String → Except Err String) (e : Err)
    (hgen : g (generatePrompt number
        (pyReprList (companies.to_list.filter (fun name => name ≠ ""))))
      = Except.error e) :
    lambda_handler companies prompts "openai" (PyVal.str "k") number true private_data
        read_dynamo g
      = { statusCode := 500, body := Body.error e } := by
  simp only [lambda_handler, init_openai, set_api_key_k, generate_companies, hgen, Except.map]
  simp

set_option maxRecDepth 8192 in
/-- Witness for C7: a gateway raising `"boom"` on the discovery prompt makes
the handler answer 500 with that error. -/
theorem generation_failure_aborts_batch_witness :
    ((fun q => if q = generatePrompt 10 (pyReprList ["Seed"]) then Except.error "boom"
        else Except.ok "x" : String → Except Err String)
      (generatePrompt 10
        (pyReprList ((StrOrList.list ["Seed"]).to_list.filter (fun name => name ≠ ""))))
      = Except.error "boom")
    ∧ lambda_handler (StrOrList.list ["Seed"]) (StrOrList.list ["Q"]) "openai"
        (PyVal.str "k") 10 true false stubDynamo
        (fun q => if q = generatePrompt 10 (pyReprList ["Seed"]) then Except.error "boom"
          else Except.ok "x" : String → Except Err String)
        = { statusCode := 500, body := Body.error "boom" } :=
  ⟨by decide,
    generation_failure_aborts_batch (StrOrList.list ["Seed"]) (StrOrList.list ["Q"]) 10 false
      stubDynamo
      (fun q => if q = generatePrompt 10 (pyReprList ["Seed"]) then Except.error "boom"
        else Except.ok "x" : String → Except Err String)
      "boom" (by decide)⟩

/-- C9: `set_api_key` stores the credential stripped of leading and trailing
whitespace (the stored value is `k.strip()`, not `k`), and raises `TypeError`
— not `ValueError` — for every non-string key. -/
theorem set_api_key_strips_and_type_errors
    (provider k : String) (v : PyVal)
    (hk : pyStrip k ≠ "") (hv : ∀ s, v ≠ PyVal.str s) :
    AIModel.set_api_key provider (PyVal.str k)
        = Except.ok (pyUpper provider ++ "_API_KEY", pyStrip k)
    ∧ (∃ m, AIModel.set_api_key provider v = Except.error (PyError.typeError m)) := by
  constructor
  · simp [AIModel.set_api_key, hk]
  · cases v with
    | str s => exact absurd rfl (hv s)
    | pyBool b => exact ⟨_, rfl⟩
    | pyInt n => exact ⟨_, rfl⟩
    | pyNone => exact ⟨_, rfl⟩

/-- Witness for C9: the key `" sk "` is stored as `"sk"`, and the non-string
key `True` raises `TypeError`. -/
theorem set_api_key_strips_and_type_errors_witness :
    pyStrip " sk " ≠ ""
    ∧ (∀ s, PyVal.pyBool true ≠ PyVal.str s)
    ∧ (AIModel.set_api_key "openai" (PyVal.str " sk ")
          = Except.ok (pyUpper "openai" ++ "_API_KEY", pyStrip " sk ")
        ∧ ∃ m, AIModel.set_api_key "openai" (PyVal.pyBool true)
            = Except.error (PyError.typeError m)) :=
  ⟨by decide, fun s h => PyVal.noConfusion h,
    set_api_key_strips_and_type_errors "openai" " sk " (PyVal.pyBool true)
      (by decide) (fun s h => PyVal.noConfusion h)⟩

/-- C10: for every provider accepted by the constructor, the stored
lower-cased provider name always finds a matching `*_api_call` method in the
dynamic lookup, so the unsupported-provider branch of `AIModel.call` is
unreachable. -/
theorem valid_provider_method_lookup_succeeds
    (provider self : String) (h : AIModel.init provider = Except.ok self) :
    (AIModel.getattr (self ++ "_api_call")).isSome = true := by
  unfold AIModel.init at h
  by_cases hmem : pyLower provider ∈ valid_providers
  · rw [if_pos hmem] at h
    injection h with h1
    subst h1
    simp only [valid_providers, List.mem_cons, List.not_mem_nil, or_false] at hmem
    rcases hmem with h2 | h2 | h2 | h2 <;> rw [h2] <;> decide
  · rw [if_neg hmem] at h
    exact Except.noConfusion h

/-- Witness for C10: `"OpenAI"` is accepted, stored as `"openai"`, and the
lookup of `"openai_api_call"` succeeds. -/
theorem valid_provider_method_lookup_succeeds_witness :
    AIModel.init "OpenAI" = Except.ok "openai"
    ∧ (AIModel.getattr ("openai" ++ "_api_call")).isSome = true :=
  ⟨by decide, valid_provider_method_lookup_succeeds "OpenAI" "openai" (by decide)⟩

end QTP
